import Mathlib

/-!
Verification of the natural-language specification of
`external/autotest/client/common_lib/cros/graphite/es_utils.py`
(Android 8.0.0_r4 tree), a client-side helper over Elasticsearch: query
composition, metadata posting (HTTP / UDP / bulk) and result fetching with
a scroll fallback.

The development is a shallow embedding of the Python module.  Python
dictionaries are modelled as duplicate-free association lists over string
keys (`Dict`); Python values as the inductive type `Value`; exceptions as
explicit `Except` results; the Elasticsearch collaborator as a record of
the responses it would give (`Engine`), with the calls the code issues
recorded in a trace (`EngineCall`).  The current wall-clock time is passed
in explicitly (`now`), as is the failure the transport raises, if any.
-/

namespace EsUtils

/-- A Python value as used by the module: numbers, strings, lists and
dictionaries.  Numeric values are modelled as integers (the module's
metadata fields compared and sorted by the claims are numeric). -/
inductive Value where
  | int : Int → Value
  | str : String → Value
  | list : List Value → Value
  | dict : List (String × Value) → Value

/-- A Python dict with string keys, as an insertion-ordered,
duplicate-free association list. -/
abbrev Dict := List (String × Value)

/-- `d[k]` lookup, `None`-style: `none` when the key is absent. -/
def dlookup (d : Dict) (k : String) : Option Value :=
  match d with
  | [] => none
  | (k', v) :: t => if k' = k then some v else dlookup t k

/-- `k in d` membership test. -/
def dmem (d : Dict) (k : String) : Bool :=
  (dlookup d k).isSome

/-- `d[k] = v` assignment: replaces the value in place when the key is
present, appends otherwise (Python dict update semantics). -/
def dinsert (d : Dict) (k : String) (v : Value) : Dict :=
  match d with
  | [] => [(k, v)]
  | (k', v') :: t => if k' = k then (k, v) :: t else (k', v') :: dinsert t k v

/-- `del d[k]`: removes the key (the module only deletes keys it has just
checked or set, so the missing-key `KeyError` case is never reached). -/
def ddel (d : Dict) (k : String) : Dict :=
  d.filter (fun kv => kv.1 ≠ k)

/-- `d.update(e)`: assign every pair of `e` into `d`, in order. -/
def dupdate (d e : Dict) : Dict :=
  e.foldl (fun acc kv => dinsert acc kv.1 kv.2) d

/-- The exceptions the module interacts with. -/
inductive PyExc where
  | elasticsearchException
  | socketError
  deriving DecidableEq, Repr

/-- Errors a modelled operation can end in: the module's own
`EsUtilException` (with its message), or some other Python runtime error
(`KeyError`, `AttributeError`, `TypeError`, ...) raised by an operation on
a value of the wrong shape. -/
inductive PyError where
  | esUtilException (msg : String)
  | runtimeError
  | exc (e : PyExc)

/-- Python `len()` on a value: defined for strings, lists and dicts;
a `TypeError` (here `none`) otherwise. -/
def pyLen : Value → Option Nat
  | Value.int _ => none
  | Value.str s => some s.length
  | Value.list l => some l.length
  | Value.dict d => some d.length

/-- Python truthiness of a value. -/
def pyTruthy : Value → Bool
  | Value.int n => n ≠ 0
  | Value.str s => s ≠ ""
  | Value.list l => !l.isEmpty
  | Value.dict d => !d.isEmpty

/-- Python `v[0]`: head of a list, first character of a string; any other
receiver raises (`none`).  (A dict receiver raises `KeyError` since the
module's dict keys are strings, never the integer `0`.) -/
def pyIndex0 : Value → Option Value
  | Value.list (x :: _) => some x
  | Value.str s => if s = "" then none else some (Value.str (s.take 1))
  | _ => none

/-- Python `v == n` against an integer literal. -/
def pyEqInt (v : Value) (n : Int) : Bool :=
  match v with
  | Value.int m => m = n
  | _ => false

/-- Python `v == s` against a string literal. -/
def pyEqStr (v : Value) (s : String) : Bool :=
  match v with
  | Value.str t => t = s
  | _ => false

/-- Python 2's cross-type ordering rank: numbers sort below every other
type; other types are ordered by type name (`dict` < `list` < `str`). -/
def typeRank : Value → Nat
  | Value.int _ => 0
  | Value.dict _ => 1
  | Value.list _ => 2
  | Value.str _ => 3

/-- The value ordering used by Python 2's `sorted` as it applies to this
module's sort keys: integers by magnitude, strings lexicographically, and
values of different types by `typeRank`.  (Python 2 additionally orders
same-type lists and dicts by their contents; the module's sort key is
always a scalar stored-field value, and the structured same-type tie is
modelled as equal rank.) -/
def valLe (a b : Value) : Bool :=
  match a, b with
  | Value.int x, Value.int y => decide (x ≤ y)
  | Value.str x, Value.str y => decide (x ≤ y)
  | a, b => decide (typeRank a ≤ typeRank b)

/-- `DEFAULT_TIMEOUT = 30`. -/
def DEFAULT_TIMEOUT : Nat := 30

/-- `DEFAULT_RESULT_SIZE = 10**4`. -/
def DEFAULT_RESULT_SIZE : Int := 10 ^ 4

/-- `DEFAULT_SCROLL_SIZE = 5*10**4`. -/
def DEFAULT_SCROLL_SIZE : Nat := 5 * 10 ^ 4

/-- A range constraint `(key, low, high)`; `none` models Python `None`
(an unbounded side). -/
abbrev RangeConstraint := String × Option Value × Option Value

/-- A range constraint is kept only when at least one side is bounded;
`(key, None, None)` is skipped by the `continue` in the source loop. -/
def nontrivialRange (c : RangeConstraint) : Bool :=
  !(c.2.1.isNone && c.2.2.isNone)

/-- The `{'range': {key: {'gte': low, 'lte': high}}}` clause built for a
range constraint, with each bound present only when it is not `None`. -/
def rangeClauseDict (c : RangeConstraint) : Value :=
  Value.dict [("range", Value.dict [(c.1, Value.dict
    ((match c.2.1 with
      | some lo => [("gte", lo)]
      | none => []) ++
     (match c.2.2 with
      | some hi => [("lte", hi)]
      | none => [])))])]

/-- `ESMetadata._compose_query`.  Raises `EsUtilException` when both the
equality and the range constraint lists are empty; otherwise builds the
query dict with a `bool`/`must` clause list in source order (equality,
batch, range, regex), then `fields` (only when truthy), `size`, and
`sort` (only when truthy).  Python's `None` defaults for
`fields_returned` and `sort_specs` coincide with the empty list under the
truthiness checks the source applies, so both are modelled as lists. -/
def composeQuery (equality_constraints : List (String × Value))
    (fields_returned : List String)
    (range_constraints : List RangeConstraint)
    (size : Int)
    (sort_specs : List Value)
    (regex_constraints : List (String × Value))
    (batch_constraints : List (String × Value)) : Except PyError Dict :=
  if equality_constraints.isEmpty && range_constraints.isEmpty then
    .error (.esUtilException "No range or equality constraints specified.")
  else
    let range_list := (range_constraints.filter nontrivialRange).map rangeClauseDict
    let eq_list := (equality_constraints.filter (fun kv => kv.1 ≠ "")).map
        (fun kv => Value.dict [("term", Value.dict [kv])])
    let batch_list := (batch_constraints.filter (fun kv => kv.1 ≠ "")).map
        (fun kv => Value.dict [("terms", Value.dict [kv])])
    let regex_list := (regex_constraints.filter (fun kv => kv.1 ≠ "")).map
        (fun kv => Value.dict [("regexp", Value.dict [kv])])
    let constraints := eq_list ++ batch_list ++ range_list ++ regex_list
    let query : Dict :=
      [("query", Value.dict [("bool", Value.dict [("must", Value.list constraints)])])]
    let query := if fields_returned.isEmpty then query
                 else dinsert query "fields" (Value.list (fields_returned.map Value.str))
    let query := dinsert query "size" (Value.int size)
    let query := if sort_specs.isEmpty then query
                 else dinsert query "sort" (Value.list sort_specs)
    .ok query

/-- The clause list of the composed document's `must` group, read back
from the nested dict structure. -/
def mustClauses (q : Dict) : Option (List Value) :=
  match dlookup q "query" with
  | some (Value.dict qq) =>
      match dlookup qq "bool" with
      | some (Value.dict bb) =>
          match dlookup bb "must" with
          | some (Value.list l) => some l
          | _ => none
      | _ => none
  | _ => none

/-- The number of `must` clauses of a composition result (`none` when the
composition raised or the document misses the group). -/
def mustCountOf (r : Except PyError Dict) : Option Nat :=
  match r with
  | .ok q => (mustClauses q).map List.length
  | .error _ => none

/-- The clause count the source actually produces: constraints with a
falsy (empty) field name are dropped by the `if k` guards on the
equality, batch and regex comprehensions, and a range constraint with
both bounds `None` is skipped. -/
def codeClauseCount (equality_constraints : List (String × Value))
    (range_constraints : List RangeConstraint)
    (regex_constraints batch_constraints : List (String × Value)) : Nat :=
  (equality_constraints.filter (fun kv => kv.1 ≠ "")).length +
  (batch_constraints.filter (fun kv => kv.1 ≠ "")).length +
  (range_constraints.filter nontrivialRange).length +
  (regex_constraints.filter (fun kv => kv.1 ≠ "")).length

/-- Modelled from the spec claim's words, for comparison with
`codeClauseCount`: the number of non-trivial constraints supplied, where
the only trivial constraint is a range with both bounds `None`. -/
def specNontrivialCount (equality_constraints : List (String × Value))
    (range_constraints : List RangeConstraint)
    (regex_constraints batch_constraints : List (String × Value)) : Nat :=
  equality_constraints.length + batch_constraints.length +
  (range_constraints.filter nontrivialRange).length +
  regex_constraints.length

/-- Outcome of one of the `_send_data_*` helpers: the exceptions it
logged, and the exception that escaped it, if any. -/
structure SendResult where
  logged : List PyExc
  raised : Option PyExc

/-- `ESMetadata._send_data_http`: issues `es.index(...)`; a raised
`ElasticsearchException` is caught and logged (muted, per the source
comment, so that metadata reporting cannot kill a test); any other
exception escapes.  `fail` is the exception the underlying call raises,
if any. -/
def sendDataHttp (fail : Option PyExc) : SendResult :=
  match fail with
  | none => ⟨[], none⟩
  | some e =>
      if e = PyExc.elasticsearchException then ⟨[e], none⟩ else ⟨[], some e⟩

/-- `ESMetadata._send_data_udp`: serializes the two-line payload and
sends one datagram; a raised `socket.error` is caught and logged, any
other exception escapes. -/
def sendDataUdp (fail : Option PyExc) : SendResult :=
  match fail with
  | none => ⟨[], none⟩
  | some e =>
      if e = PyExc.socketError then ⟨[e], none⟩ else ⟨[], some e⟩

/-- Outcome of `ESMetadata.post`: the Python return value (`none` when an
exception escaped instead), the escaped exception, the `(type_str,
metadata)` pair handed to the transport send (`none` when the send was
never reached), and the exceptions logged. -/
structure PostOutcome where
  retval : Option Bool
  raised : Option PyExc
  sent : Option (Value × Dict)
  logged : List PyExc

/-- `ESMetadata.post`.  An empty record short-circuits to `True`.  The
record is copied, `kwargs` merged in, a `_type` key overrides `type_str`
and is stripped, and when `log_time_recorded` is set the current time
(`now`) is written into `time_recorded` unconditionally.  The send is
wrapped in a handler that catches `ElasticsearchException` and returns
`False`; other escaped exceptions propagate.  `transportFail` is the
exception the underlying transport call raises, if any. -/
def post (use_http : Bool) (type_str : Value) (metadata : Dict)
    (log_time_recorded : Bool) (kwargs : Dict) (now : Value)
    (transportFail : Option PyExc) : PostOutcome :=
  if metadata.isEmpty then ⟨some true, none, none, []⟩
  else
    let m := dupdate metadata kwargs
    let tm := match dlookup m "_type" with
      | some t => (t, ddel m "_type")
      | none => (type_str, m)
    let m := if log_time_recorded then dinsert tm.2 "time_recorded" now else tm.2
    let s := if use_http then sendDataHttp transportFail
             else sendDataUdp transportFail
    match s.raised with
    | none => ⟨some true, none, some (tm.1, m), s.logged⟩
    | some e =>
        if e = PyExc.elasticsearchException then
          ⟨some false, none, some (tm.1, m), s.logged ++ [e]⟩
        else ⟨none, some e, some (tm.1, m), s.logged⟩

/-- The effective type string `post` hands to the transport: a `_type`
key of the merged record overrides the `type_str` argument. -/
def postTypeStr (type_str : Value) (metadata kwargs : Dict) : Value :=
  match dlookup (dupdate metadata kwargs) "_type" with
  | some t => t
  | none => type_str

/-- The payload `post` hands to the transport: the merged record with
`_type` stripped and, when stamping is enabled, `time_recorded` set to
the current time. -/
def postPayload (metadata kwargs : Dict) (log_time_recorded : Bool)
    (now : Value) : Dict :=
  let m := dupdate metadata kwargs
  let m := match dlookup m "_type" with
    | some _ => ddel m "_type"
    | none => m
  if log_time_recorded then dinsert m "time_recorded" now else m

/-- The per-record enrichment `ESMetadata.bulk_post` applies inside its
loop: copy, merge `kwargs`, stamp `time_recorded` only when enabled and
not already present, then tag the destination `_index`. -/
def bulkEnrich (index : String) (log_time_recorded : Bool) (kwargs : Dict)
    (now : Value) (metadata : Dict) : Dict :=
  let m := dupdate metadata kwargs
  let m := if log_time_recorded && !dmem m "time_recorded" then
             dinsert m "time_recorded" now
           else m
  dinsert m "_index" (Value.str index)

/-- Outcome of `ESMetadata.bulk_post`: Python return value (`none` when
an exception escaped), escaped exception, the action list handed to
`elasticsearch_helpers.bulk` (`none` when it was never reached), and the
exceptions logged. -/
structure BulkOutcome where
  retval : Option Bool
  raised : Option PyExc
  actions : Option (List Dict)
  logged : List PyExc

/-- `ESMetadata.bulk_post`.  An empty list short-circuits to `True`;
otherwise every record is enriched (`bulkEnrich`) and the batch is handed
to the bulk helper, whose `ElasticsearchException` is caught, logged and
turned into `False`.  `bulkFail` is the exception the bulk call raises,
if any. -/
def bulk_post (index : String) (data_list : List Dict)
    (log_time_recorded : Bool) (kwargs : Dict) (now : Value)
    (bulkFail : Option PyExc) : BulkOutcome :=
  if data_list.isEmpty then ⟨some true, none, none, []⟩
  else
    let actions := data_list.map (bulkEnrich index log_time_recorded kwargs now)
    match bulkFail with
    | none => ⟨some true, none, some actions, []⟩
    | some e =>
        if e = PyExc.elasticsearchException then
          ⟨some false, none, some actions, [e]⟩
        else ⟨none, some e, some actions, []⟩

/-- One page of an engine search response: `hits.total` and
`hits.hits`. -/
structure SearchResult where
  total : Nat
  hits : List Dict

/-- The Elasticsearch collaborator, modelled by the responses it gives:
whether the target index exists, the response to the first search, the
response to the re-issued size-1 search of the scan path (consumed only
by progress logging), and the hits the scan/scroll helper yields. -/
structure Engine where
  indexExists : Bool
  search1 : SearchResult
  search2 : SearchResult
  scanHits : List Dict

/-- One call the code issues against the collaborator, recorded with the
request body as it stands at call time. -/
inductive EngineCall where
  | indicesExists
  | search (body : Dict)
  | scan (body : Dict) (size : Nat)

/-- Log messages the claims talk about. -/
inductive LogMsg where
  | indexMissing
  | scrollWarn
  deriving DecidableEq, Repr

/-- `value[0] if len(value)==1 else value` on one projected field value;
Python's `len()` raises on a non-list (`none`). -/
def unwrapField (v : Value) : Option Value :=
  match v with
  | Value.list [x] => some x
  | Value.list xs => some (Value.list xs)
  | _ => none

/-- The normalization `execute_query` applies to one hit: a
field-projection hit has each single-element field list unwrapped; a full
hit contributes a copy of its `_source` record.  `none` models the
runtime error Python raises when the hit misses the expected shape. -/
def convertHit (hit : Dict) : Option Dict :=
  if dmem hit "fields" then
    match dlookup hit "fields" with
    | some (Value.dict fs) =>
        fs.mapM (fun kv => (unwrapField kv.2).map (fun w => (kv.1, w)))
    | _ => none
  else
    match dlookup hit "_source" with
    | some (Value.dict src) => some src
    | _ => none

/-- Normalize every hit; a failing hit raises out of the loop. -/
def convertAll (hits : List Dict) : Except PyError (List Dict) :=
  match hits.mapM convertHit with
  | some l => .ok l
  | none => .error .runtimeError

/-- The sort-key lambda of `_get_results_by_scan`:
`hit['_source'][sort_key] if '_source' in hit else
hit['fields'][sort_key][0]`; `none` models the `KeyError`/`TypeError`
Python raises when the hit misses the key or has the wrong shape. -/
def scanSortVal (sort_key : String) (hit : Dict) : Option Value :=
  if dmem hit "_source" then
    match dlookup hit "_source" with
    | some (Value.dict src) => dlookup src sort_key
    | _ => none
  else
    match dlookup hit "fields" with
    | some (Value.dict fs) =>
        match dlookup fs sort_key with
        | some (Value.list (x :: _)) => some x
        | _ => none
    | _ => none

/-- The total key function the modelled sort uses; on the hits the sort
path actually reaches (all extractions succeed) the default is never
consulted. -/
def scanSortKeyD (sort_key : String) (hit : Dict) : Value :=
  (scanSortVal sort_key hit).getD (Value.int 0)

/-- The comparison `sorted(hits, key=key, reverse=is_desc)` sorts by. -/
def hitLe (sort_key : String) (is_desc : Bool) (a b : Dict) : Bool :=
  if is_desc then valLe (scanSortKeyD sort_key b) (scanSortKeyD sort_key a)
  else valLe (scanSortKeyD sort_key a) (scanSortKeyD sort_key b)

/-- The client-side re-sort: Python's `sorted` is a stable merge sort;
`reverse=True` is the stable sort by the reversed comparison. -/
def sortHits (sort_key : String) (is_desc : Bool) (hits : List Dict) : List Dict :=
  hits.mergeSort (hitLe sort_key is_desc)

/-- Outcome of `_get_results_by_scan`: the hits returned (or the raised
error), the final state of the (mutated) query dict, and the engine calls
issued. -/
structure ScanOutcome where
  result : Except PyError (List Dict)
  query : Dict
  calls : List EngineCall

/-- `ESMetadata._get_results_by_scan`.  The `if True or not total_match:`
guard always runs: `size` is overwritten with 1 and the search re-issued
(its response feeds only the progress-percentage logging).  A `sort`
entry of the query is read out; `len(sort) > 1` raises `EsUtilException`
(the source formats the message by passing the sort as a second exception
argument; only the format string is modelled).  Otherwise `sort` and
`size` are deleted and the scan is driven with `DEFAULT_SCROLL_SIZE`,
collecting `eng.scanHits`.  A truthy sort then re-sorts client-side by
the single key of `sort[0]`, descending exactly when its direction value
equals `'desc'`. -/
def getResultsByScan (eng : Engine) (query : Dict) : ScanOutcome :=
  let query := dinsert query "size" (Value.int 1)
  let calls := [EngineCall.search query]
  let _totalMatch := eng.search2.total
  match dlookup query "sort" with
  | some sortVal =>
      match pyLen sortVal with
      | none => ⟨.error .runtimeError, query, calls⟩
      | some n =>
          if 1 < n then
            ⟨.error (.esUtilException
              "_get_results_by_scan does not support sort with more than one key: %s"),
             query, calls⟩
          else
            let query := ddel query "sort"
            let query := ddel query "size"
            let calls := calls ++ [EngineCall.scan query DEFAULT_SCROLL_SIZE]
            let hits := eng.scanHits
            if pyTruthy sortVal then
              match pyIndex0 sortVal with
              | none => ⟨.error .runtimeError, query, calls⟩
              | some s0 =>
                  match s0 with
                  | Value.dict ((k, v) :: _) =>
                      let is_desc := pyEqStr v "desc"
                      match hits.mapM (fun h => scanSortVal k h) with
                      | none => ⟨.error .runtimeError, query, calls⟩
                      | some _ => ⟨.ok (sortHits k is_desc hits), query, calls⟩
                  | _ => ⟨.error .runtimeError, query, calls⟩
            else ⟨.ok hits, query, calls⟩
  | none =>
      let query := ddel query "size"
      let calls := calls ++ [EngineCall.scan query DEFAULT_SCROLL_SIZE]
      ⟨.ok eng.scanHits, query, calls⟩

/-- `QueryResult` (total match count plus normalized hits). -/
structure QueryResultM where
  total : Nat
  hits : List Dict

/-- Outcome of `execute_query`: the returned value — `none` inside `.ok`
models Python's `None` return for a missing index — or the raised error;
the final state of the caller's query dict; the engine calls issued; and
the log messages emitted that the claims mention. -/
structure ExecOutcome where
  result : Except PyError (Option QueryResultM)
  query : Dict
  calls : List EngineCall
  logs : List LogMsg

/-- `ESMetadata.execute_query`.  A missing index is logged and `None` is
returned before any search.  Otherwise the query is run as given;
scrolling is needed exactly when the query carries a `size` entry equal
to `DEFAULT_RESULT_SIZE` (the `query.get('size', 1)` default never
passes that test) and the reported total exceeds the first page's hit
count.  The scan path's hits — or, otherwise, the first page's hits —
are then normalized into the `QueryResult`. -/
def executeQuery (eng : Engine) (query : Dict) : ExecOutcome :=
  if eng.indexExists = false then
    ⟨.ok none, query, [EngineCall.indicesExists], [LogMsg.indexMissing]⟩
  else
    let result := eng.search1
    let size := (dlookup query "size").getD (Value.int 1)
    let need_scroll := dmem query "size" && pyEqInt size DEFAULT_RESULT_SIZE
    let return_count := result.hits.length
    let total_match := result.total
    if return_count < total_match ∧ need_scroll = true then
      let s := getResultsByScan eng query
      match s.result with
      | .error e =>
          ⟨.error e, s.query,
           EngineCall.indicesExists :: EngineCall.search query :: s.calls,
           [LogMsg.scrollWarn]⟩
      | .ok rawHits =>
          match convertAll rawHits with
          | .error e =>
              ⟨.error e, s.query,
               EngineCall.indicesExists :: EngineCall.search query :: s.calls,
               [LogMsg.scrollWarn]⟩
          | .ok hs =>
              ⟨.ok (some ⟨total_match, hs⟩), s.query,
               EngineCall.indicesExists :: EngineCall.search query :: s.calls,
               [LogMsg.scrollWarn]⟩
    else
      match convertAll result.hits with
      | .error e =>
          ⟨.error e, query,
           [EngineCall.indicesExists, EngineCall.search query], []⟩
      | .ok hs =>
          ⟨.ok (some ⟨total_match, hs⟩), query,
           [EngineCall.indicesExists, EngineCall.search query], []⟩

/-- Whether an execution issued a second search, the observable signature
of the scroll path (the scan path always re-issues the search with size
1 before anything else). -/
def isSearchCall : EngineCall → Bool
  | .search _ => true
  | _ => false

/-- Number of search calls in a trace. -/
def searchCallCount (calls : List EngineCall) : Nat :=
  (calls.filter isSearchCall).length

/-- The scroll path was taken: at least two searches were issued. -/
def scrollTaken (o : ExecOutcome) : Bool :=
  decide (2 ≤ searchCallCount o.calls)

/-! ## Helper lemmas about the dict operations and the value order -/

theorem dlookup_dinsert_self (d : Dict) (k : String) (v : Value) :
    dlookup (dinsert d k v) k = some v := by
  induction d with
  | nil => simp [dinsert, dlookup]
  | cons kv t ih =>
      by_cases h : kv.1 = k <;> simp [dinsert, dlookup, h, ih]

theorem dlookup_dinsert_ne (d : Dict) (k k' : String) (v : Value) (h : k ≠ k') :
    dlookup (dinsert d k v) k' = dlookup d k' := by
  induction d with
  | nil => simp [dinsert, dlookup, h]
  | cons kv t ih =>
      by_cases hk : kv.1 = k <;> simp [dinsert, dlookup, hk, h, ih]

theorem dlookup_ddel_self (d : Dict) (k : String) :
    dlookup (ddel d k) k = none := by
  induction d with
  | nil => simp [ddel, dlookup]
  | cons kv t ih =>
      by_cases h : kv.1 = k <;> simp_all [ddel, dlookup, h]

theorem dlookup_ddel_ne (d : Dict) (k k' : String) (h : k ≠ k') :
    dlookup (ddel d k) k' = dlookup d k' := by
  induction d with
  | nil => simp [ddel, dlookup]
  | cons kv t ih =>
      by_cases hk : kv.1 = k
      · simp_all [ddel, dlookup, hk, Ne.symm h]
      · by_cases hk' : kv.1 = k' <;> simp_all [ddel, dlookup, hk, hk']

theorem dmem_ddel_self (d : Dict) (k : String) : dmem (ddel d k) k = false := by
  simp [dmem, dlookup_ddel_self]

theorem valLe_trans (a b c : Value) (hab : valLe a b = true)
    (hbc : valLe b c = true) : valLe a c = true := by
  cases a <;> cases b <;> cases c <;>
    simp_all [valLe, typeRank] <;>
    first
      | omega
      | exact le_trans hab hbc

theorem valLe_total (a b : Value) : (valLe a b || valLe b a) = true := by
  cases a <;> cases b <;> simp [valLe, typeRank] <;>
    first
      | omega
      | exact le_total _ _

theorem valLe_int (x y : Int) :
    valLe (Value.int x) (Value.int y) = decide (x ≤ y) := rfl

theorem post_sent (use_http : Bool) (type_str : Value) (metadata kwargs : Dict)
    (log_time_recorded : Bool) (now : Value) (tf : Option PyExc)
    (hmd : metadata.isEmpty = false) :
    (post use_http type_str metadata log_time_recorded kwargs now tf).sent
      = some (postTypeStr type_str metadata kwargs,
              postPayload metadata kwargs log_time_recorded now) := by
  cases use_http <;> rcases tf with _ | e <;> try cases e
  all_goals
    simp only [post, hmd, Bool.false_eq_true, if_false, if_true,
      sendDataHttp, sendDataUdp, postTypeStr, postPayload]
  all_goals
    cases h : dlookup (dupdate metadata kwargs) "_type" <;> simp [h]

theorem postPayload_time_recorded (metadata kwargs : Dict) (now : Value) :
    dlookup (postPayload metadata kwargs true now) "time_recorded" = some now := by
  simp only [postPayload]
  cases h : dlookup (dupdate metadata kwargs) "_type" <;>
    simp [h, dlookup_dinsert_self]

theorem postPayload_no_type (metadata kwargs : Dict) (log_time_recorded : Bool)
    (now : Value) :
    dlookup (postPayload metadata kwargs log_time_recorded now) "_type" = none := by
  simp only [postPayload]
  cases h : dlookup (dupdate metadata kwargs) "_type" <;>
    cases log_time_recorded <;>
      simp [h, dlookup_ddel_self,
        dlookup_dinsert_ne _ _ _ _ (by decide : "time_recorded" ≠ "_type")]

/-! ## Claim C7 -/

/-- Claim C7: for every call of `_compose_query` in which both the
equality-constraint list and the range-constraint list are empty, the
composition raises `EsUtilException`, regardless of how many regex or
batch constraints are supplied. -/
theorem c7_compose_empty_raises (fields_returned : List String) (size : Int)
    (sort_specs : List Value)
    (regex_constraints batch_constraints : List (String × Value)) :
    composeQuery [] fields_returned [] size sort_specs
        regex_constraints batch_constraints
      = .error (.esUtilException "No range or equality constraints specified.") := by
  simp [composeQuery]

/-! ## Claim C3 -/

/-- Claim C3, counterexample: an equality constraint whose field name is
the empty (falsy) string is dropped by the source's `if k` guard, so the
must-group of `composeQuery [("", 1)] ...` has 0 clauses while the
claim's count of non-trivial constraints is 1. -/
theorem c3_counterexample :
    mustCountOf (composeQuery [("", Value.int 1)] [] [] DEFAULT_RESULT_SIZE [] [] [])
      ≠ some (specNontrivialCount [("", Value.int 1)] [] [] []) := by
  decide

/-- Claim C3 (amended): for every call of `_compose_query` with at least
one equality or range constraint supplied, the composed document's
must-group has exactly as many clauses as the number of non-trivial
constraints across the equality, batch, range and regex categories, where
a range constraint with both bounds `None` is trivial, and an equality,
batch or regex constraint whose field name is falsy (empty) is also
trivial and contributes zero clauses. -/
theorem c3_amended_clause_count (equality_constraints : List (String × Value))
    (fields_returned : List String) (range_constraints : List RangeConstraint)
    (size : Int) (sort_specs : List Value)
    (regex_constraints batch_constraints : List (String × Value))
    (h : (equality_constraints.isEmpty && range_constraints.isEmpty) = false) :
    mustCountOf (composeQuery equality_constraints fields_returned
        range_constraints size sort_specs regex_constraints batch_constraints)
      = some (codeClauseCount equality_constraints range_constraints
          regex_constraints batch_constraints) := by
  simp only [composeQuery, h, Bool.false_eq_true, if_false]
  by_cases hf : fields_returned.isEmpty <;>
    by_cases hs : sort_specs.isEmpty <;>
      simp [hf, hs, mustCountOf, mustClauses, codeClauseCount,
        dlookup_dinsert_ne _ _ _ _ (by decide : "sort" ≠ "query"),
        dlookup_dinsert_ne _ _ _ _ (by decide : "size" ≠ "query"),
        dlookup_dinsert_ne _ _ _ _ (by decide : "fields" ≠ "query"),
        dlookup] <;> omega

/-- Claim C3 witness: the amended count theorem evaluated at a concrete
constraint set (one equality, one bounded range, one trivial range, one
regex, one batch). -/
theorem c3_witness :
    mustCountOf (composeQuery [("f", Value.int 1)] ["f"]
        [("g", some (Value.int 0), none), ("h", none, none)]
        20 [] [("r", Value.str "x")] [("b", Value.list [Value.int 1])])
      = some (codeClauseCount [("f", Value.int 1)]
          [("g", some (Value.int 0), none), ("h", none, none)]
          [("r", Value.str "x")] [("b", Value.list [Value.int 1])]) :=
  c3_amended_clause_count [("f", Value.int 1)] ["f"]
    [("g", some (Value.int 0), none), ("h", none, none)]
    20 [] [("r", Value.str "x")] [("b", Value.list [Value.int 1])] rfl

/-! ## Claim C1 -/

/-- Claim C1, counterexample: with a non-empty record, an engine
exception raised by the HTTP transport (and a socket error raised by the
UDP transport) is caught and logged inside `_send_data_http`
(`_send_data_udp`), so `post` returns `True`, not `False`. -/
theorem c1_counterexample :
    (post true (Value.str "t") [("a", Value.int 1)] true [] (Value.int 0)
        (some PyExc.elasticsearchException)).retval ≠ some false ∧
    (post true (Value.str "t") [("a", Value.int 1)] true [] (Value.int 0)
        (some PyExc.elasticsearchException)).retval = some true ∧
    (post false (Value.str "t") [("a", Value.int 1)] true [] (Value.int 0)
        (some PyExc.socketError)).retval = some true := by
  refine ⟨?_, rfl, rfl⟩
  intro h
  simp [post, sendDataHttp, dupdate, dlookup] at h

/-- Claim C1 (amended): for every non-empty metadata record, when the
transport raises an error during `post` (an engine exception on the HTTP
path, a socket error on the UDP path), the error is caught and logged at
the `_send_data_*` layer and `post` returns `True`; `post` never raises
on such a transport failure. -/
theorem c1_amended_transport_error_muted (type_str : Value)
    (metadata kwargs : Dict) (now : Value) (log_time_recorded : Bool)
    (hmd : metadata.isEmpty = false) :
    ((post true type_str metadata log_time_recorded kwargs now
        (some PyExc.elasticsearchException)).retval = some true ∧
     (post true type_str metadata log_time_recorded kwargs now
        (some PyExc.elasticsearchException)).raised = none ∧
     (post true type_str metadata log_time_recorded kwargs now
        (some PyExc.elasticsearchException)).logged
        = [PyExc.elasticsearchException]) ∧
    ((post false type_str metadata log_time_recorded kwargs now
        (some PyExc.socketError)).retval = some true ∧
     (post false type_str metadata log_time_recorded kwargs now
        (some PyExc.socketError)).raised = none ∧
     (post false type_str metadata log_time_recorded kwargs now
        (some PyExc.socketError)).logged = [PyExc.socketError]) := by
  simp [post, sendDataHttp, sendDataUdp, hmd]

/-- Claim C1 witness: the amended theorem evaluated on a concrete
one-field record over both transports. -/
theorem c1_witness :
    (post true (Value.str "w") [("b", Value.int 2)] true [] (Value.int 0)
        (some PyExc.elasticsearchException)).retval = some true ∧
    (post false (Value.str "w") [("b", Value.int 2)] true [] (Value.int 0)
        (some PyExc.socketError)).raised = none := by
  have h := c1_amended_transport_error_muted (Value.str "w") [("b", Value.int 2)]
    [] (Value.int 0) true rfl
  exact ⟨h.1.1, h.2.2.1⟩

/-! ## Claim C4 -/

/-- Claim C4, counterexample: `post` stamps `time_recorded`
unconditionally when `log_time_recorded` is set, so a caller-supplied
value 5 is overwritten with the current time 7 in the payload handed to
the transport. -/
theorem c4_counterexample :
    (post true (Value.str "t") [("time_recorded", Value.int 5)] true []
        (Value.int 7) none).sent
      = some (Value.str "t", [("time_recorded", Value.int 7)]) ∧
    Value.int 7 ≠ Value.int 5 := by
  refine ⟨rfl, ?_⟩
  simp

/-- Claim C4 (amended): with timestamp stamping enabled, `bulk_post`
injects `time_recorded` only when the caller did not provide one and
preserves a caller-supplied value, whereas `post` always writes the
current time into `time_recorded`, overwriting any caller-supplied
value. -/
theorem c4_amended_time_recorded (use_http : Bool) (type_str : Value)
    (index : String) (metadata kwargs : Dict) (now : Value)
    (transportFail : Option PyExc)
    (hmd : metadata.isEmpty = false) :
    (∃ t p, (post use_http type_str metadata true kwargs now
        transportFail).sent = some (t, p) ∧
        dlookup p "time_recorded" = some now) ∧
    (∀ md : Dict, dmem (dupdate md kwargs) "time_recorded" = true →
        dlookup (bulkEnrich index true kwargs now md) "time_recorded"
          = dlookup (dupdate md kwargs) "time_recorded") ∧
    (∀ md : Dict, dmem (dupdate md kwargs) "time_recorded" = false →
        dlookup (bulkEnrich index true kwargs now md) "time_recorded"
          = some now) ∧
    (∀ dl : List Dict, dl.isEmpty = false →
        (bulk_post index dl true kwargs now none).actions
          = some (dl.map (bulkEnrich index true kwargs now))) := by
  refine ⟨?_, ?_, ?_, ?_⟩
  · exact ⟨postTypeStr type_str metadata kwargs,
      postPayload metadata kwargs true now,
      post_sent use_http type_str metadata kwargs true now transportFail hmd,
      postPayload_time_recorded metadata kwargs now⟩
  · intro md h
    simp [bulkEnrich, h,
      dlookup_dinsert_ne _ _ _ _ (by decide : "_index" ≠ "time_recorded")]
  · intro md h
    simp [bulkEnrich, h,
      dlookup_dinsert_ne _ _ _ _ (by decide : "_index" ≠ "time_recorded"),
      dlookup_dinsert_self]
  · intro dl h
    simp [bulk_post, h]

/-- Claim C4 witness: the amended theorem evaluated on a concrete record
that carries its own `time_recorded`, for both posting entry points. -/
theorem c4_witness :
    (∃ t p, (post true (Value.str "t") [("time_recorded", Value.int 5)] true
        [] (Value.int 9) none).sent = some (t, p) ∧
        dlookup p "time_recorded" = some (Value.int 9)) ∧
    dlookup (bulkEnrich "ix" true [] (Value.int 9)
        [("time_recorded", Value.int 5)]) "time_recorded"
      = dlookup (dupdate [("time_recorded", Value.int 5)] []) "time_recorded" := by
  have h := c4_amended_time_recorded true (Value.str "t") "ix"
    [("time_recorded", Value.int 5)] [] (Value.int 9) none rfl
  exact ⟨h.1, h.2.1 [("time_recorded", Value.int 5)] rfl⟩

/-! ## Claim C10 -/

/-- Claim C10: `bulk_post` neither uses a `_type` field found in a record
to override the record type nor strips it — the caller's `_type` key
survives into the bulk action payload, which additionally receives an
`_index` key set to the configured collection name — while `post` both
overrides its `type_str` with the record's `_type` value and strips the
key from the payload it sends. -/
theorem c10_bulk_type_passthrough (index : String) (type_str : Value)
    (use_http log_time_recorded : Bool) (metadata kwargs : Dict)
    (now t : Value) (transportFail : Option PyExc)
    (ht : dlookup (dupdate metadata kwargs) "_type" = some t)
    (hmd : metadata.isEmpty = false) :
    (dlookup (bulkEnrich index log_time_recorded kwargs now metadata) "_type"
        = some t ∧
     dlookup (bulkEnrich index log_time_recorded kwargs now metadata) "_index"
        = some (Value.str index) ∧
     (∀ dl : List Dict, dl.isEmpty = false →
        (bulk_post index dl log_time_recorded kwargs now none).actions
          = some (dl.map (bulkEnrich index log_time_recorded kwargs now)))) ∧
    (∃ p, (post use_http type_str metadata log_time_recorded kwargs now
        transportFail).sent = some (t, p) ∧ dmem p "_type" = false) := by
  refine ⟨⟨?_, ?_, ?_⟩, ?_⟩
  · unfold bulkEnrich
    rw [dlookup_dinsert_ne _ _ _ _ (by decide : "_index" ≠ "_type")]
    by_cases h : (log_time_recorded && !dmem (dupdate metadata kwargs)
        "time_recorded") = true <;>
      simp [h, ht,
        dlookup_dinsert_ne _ _ _ _ (by decide : "time_recorded" ≠ "_type")]
  · unfold bulkEnrich
    exact dlookup_dinsert_self _ _ _
  · intro dl h
    simp [bulk_post, h]
  · refine ⟨postPayload metadata kwargs log_time_recorded now, ?_, ?_⟩
    · have hs := post_sent use_http type_str metadata kwargs log_time_recorded
        now transportFail hmd
      rw [hs]
      simp [postTypeStr, ht]
    · simp [dmem, postPayload_no_type]

/-- Claim C10 witness: the pass-through theorem evaluated on a concrete
record carrying `_type`. -/
theorem c10_witness :
    dlookup (bulkEnrich "ix" true [] (Value.int 0)
        [("_type", Value.str "x"), ("a", Value.int 1)]) "_type"
      = some (Value.str "x") ∧
    (∃ p, (post true (Value.str "orig") [("_type", Value.str "x"),
        ("a", Value.int 1)] true [] (Value.int 0) none).sent
      = some (Value.str "x", p) ∧ dmem p "_type" = false) := by
  have h := c10_bulk_type_passthrough "ix" (Value.str "orig") true true
    [("_type", Value.str "x"), ("a", Value.int 1)] [] (Value.int 0)
    (Value.str "x") none rfl rfl
  exact ⟨h.1.1, h.2⟩

/-! ## Claim C8 -/

/-- Claim C8: for every query, if the target collection (index) does not
exist, `execute_query` returns `None` without raising and without
issuing a search; the missing collection is logged, not propagated as an
error, and the caller's query is untouched. -/
theorem c8_missing_index (eng : Engine) (query : Dict)
    (h : eng.indexExists = false) :
    (executeQuery eng query).result = .ok none ∧
    (executeQuery eng query).calls = [EngineCall.indicesExists] ∧
    (executeQuery eng query).logs = [LogMsg.indexMissing] ∧
    (executeQuery eng query).query = query := by
  simp [executeQuery, h]

/-- Claim C8 witness: the missing-index theorem evaluated at a concrete
engine and query. -/
theorem c8_witness :
    (executeQuery ⟨false, ⟨0, []⟩, ⟨0, []⟩, []⟩
        [("size", Value.int 5)]).result = .ok none :=
  (c8_missing_index ⟨false, ⟨0, []⟩, ⟨0, []⟩, []⟩ [("size", Value.int 5)] rfl).1

/-! ## Scaffolding for the scroll path -/

theorem needScroll_iff (q : Dict) :
    (dmem q "size" &&
      pyEqInt ((dlookup q "size").getD (Value.int 1)) DEFAULT_RESULT_SIZE) = true
    ↔ dlookup q "size" = some (Value.int DEFAULT_RESULT_SIZE) := by
  cases h : dlookup q "size" with
  | none => simp [dmem, h]
  | some v =>
      cases v <;> simp [dmem, h, pyEqInt]

theorem executeQuery_scroll_shape (eng : Engine) (q : Dict)
    (hex : eng.indexExists = true)
    (hsize : dlookup q "size" = some (Value.int DEFAULT_RESULT_SIZE))
    (htot : eng.search1.hits.length < eng.search1.total) :
    (executeQuery eng q).query = (getResultsByScan eng q).query ∧
    (executeQuery eng q).calls
      = EngineCall.indicesExists :: EngineCall.search q ::
          (getResultsByScan eng q).calls ∧
    (executeQuery eng q).result
      = (match (getResultsByScan eng q).result with
         | .error e => .error e
         | .ok rawHits =>
             (convertAll rawHits).map (fun hs => some ⟨eng.search1.total, hs⟩)) := by
  have hns : (dmem q "size" &&
      pyEqInt ((dlookup q "size").getD (Value.int 1)) DEFAULT_RESULT_SIZE) = true :=
    (needScroll_iff q).mpr hsize
  simp only [executeQuery, hex, Bool.true_eq_false, if_false]
  rw [if_pos ⟨htot, hns⟩]
  refine ⟨?_, ?_, ?_⟩ <;>
    cases hr : (getResultsByScan eng q).result with
    | error e => simp [hr]
    | ok rawHits =>
        cases hc : convertAll rawHits <;> simp [hr, hc, Except.map]

theorem executeQuery_noscroll_shape (eng : Engine) (q : Dict)
    (hex : eng.indexExists = true)
    (h : ¬(dlookup q "size" = some (Value.int DEFAULT_RESULT_SIZE) ∧
        eng.search1.hits.length < eng.search1.total)) :
    (executeQuery eng q).query = q ∧
    (executeQuery eng q).calls
      = [EngineCall.indicesExists, EngineCall.search q] ∧
    (executeQuery eng q).result
      = (convertAll eng.search1.hits).map
          (fun hs => some ⟨eng.search1.total, hs⟩) := by
  have hcond : ¬(eng.search1.hits.length < eng.search1.total ∧
      (dmem q "size" &&
        pyEqInt ((dlookup q "size").getD (Value.int 1)) DEFAULT_RESULT_SIZE) = true) := by
    intro hc
    exact h ⟨(needScroll_iff q).mp hc.2, hc.1⟩
  simp only [executeQuery, hex, Bool.true_eq_false, if_false]
  rw [if_neg hcond]
  cases hc : convertAll eng.search1.hits <;> simp [hc, Except.map]

theorem getResultsByScan_calls_head (eng : Engine) (q : Dict) :
    ∃ rest, (getResultsByScan eng q).calls
      = EngineCall.search (dinsert q "size" (Value.int 1)) :: rest := by
  simp only [getResultsByScan]
  repeat' split
  all_goals exact ⟨_, rfl⟩

theorem getResultsByScan_multikey (eng : Engine) (q : Dict) (ss : List Value)
    (hsort : dlookup q "sort" = some (Value.list ss)) (hlen : 1 < ss.length) :
    getResultsByScan eng q
      = ⟨.error (.esUtilException
            "_get_results_by_scan does not support sort with more than one key: %s"),
         dinsert q "size" (Value.int 1),
         [EngineCall.search (dinsert q "size" (Value.int 1))]⟩ := by
  have hsort' : dlookup (dinsert q "size" (Value.int 1)) "sort"
      = some (Value.list ss) :=
    (dlookup_dinsert_ne q "size" "sort" (Value.int 1) (by decide)).trans hsort
  simp only [getResultsByScan, hsort', pyLen]
  rw [if_pos hlen]

/-! ## Claim C2 -/

/-- Claim C2: `execute_query` takes the scroll path exactly when the
query carries a `size` entry equal to the module default
`DEFAULT_RESULT_SIZE` and the total match count reported by the first
search exceeds the number of hits returned in that first page; under any
other combination only the one search is issued and the first page's
hits are used directly. -/
theorem c2_scroll_condition (eng : Engine) (q : Dict)
    (hex : eng.indexExists = true) :
    (scrollTaken (executeQuery eng q) = true ↔
      (dlookup q "size" = some (Value.int DEFAULT_RESULT_SIZE) ∧
       eng.search1.hits.length < eng.search1.total)) ∧
    (¬(dlookup q "size" = some (Value.int DEFAULT_RESULT_SIZE) ∧
       eng.search1.hits.length < eng.search1.total) →
      (executeQuery eng q).calls
        = [EngineCall.indicesExists, EngineCall.search q] ∧
      (executeQuery eng q).result
        = (convertAll eng.search1.hits).map
            (fun hs => some ⟨eng.search1.total, hs⟩)) := by
  by_cases hc : dlookup q "size" = some (Value.int DEFAULT_RESULT_SIZE) ∧
      eng.search1.hits.length < eng.search1.total
  · have hshape := executeQuery_scroll_shape eng q hex hc.1 hc.2
    obtain ⟨rest, hrest⟩ := getResultsByScan_calls_head eng q
    refine ⟨⟨fun _ => hc, fun _ => ?_⟩, fun h => absurd hc h⟩
    simp [scrollTaken, searchCallCount, hshape.2.1, hrest, isSearchCall,
      List.filter]
  · have hshape := executeQuery_noscroll_shape eng q hex hc
    refine ⟨⟨fun hs => ?_, fun h => absurd h hc⟩, fun _ => ⟨hshape.2.1, hshape.2.2⟩⟩
    rw [scrollTaken, hshape.2.1] at hs
    simp [searchCallCount, isSearchCall, List.filter] at hs

/-- Claim C2 witness: the scroll-condition theorem evaluated at a
concrete engine reporting 5 total matches against an empty first page
and a query sized at the default. -/
theorem c2_witness :
    scrollTaken (executeQuery ⟨true, ⟨5, []⟩, ⟨5, []⟩, []⟩
        [("size", Value.int DEFAULT_RESULT_SIZE)]) = true :=
  ((c2_scroll_condition ⟨true, ⟨5, []⟩, ⟨5, []⟩, []⟩
      [("size", Value.int DEFAULT_RESULT_SIZE)] rfl).1).mpr ⟨rfl, by decide⟩

/-! ## Claim C5 -/

/-- Claim C5: if the scroll path is taken and the query document carries
a sort specification with more than one key, the fetch raises the
module's configuration error (`EsUtilException`) and no scan call is
ever attempted. -/
theorem c5_multikey_sort_raises (eng : Engine) (q : Dict) (ss : List Value)
    (hex : eng.indexExists = true)
    (hsize : dlookup q "size" = some (Value.int DEFAULT_RESULT_SIZE))
    (htot : eng.search1.hits.length < eng.search1.total)
    (hsort : dlookup q "sort" = some (Value.list ss))
    (hlen : 1 < ss.length) :
    (executeQuery eng q).result
      = .error (.esUtilException
          "_get_results_by_scan does not support sort with more than one key: %s") ∧
    (∀ b n, EngineCall.scan b n ∉ (executeQuery eng q).calls) := by
  have hshape := executeQuery_scroll_shape eng q hex hsize htot
  have hscan := getResultsByScan_multikey eng q ss hsort hlen
  constructor
  · rw [hshape.2.2, hscan]
  · intro b n
    rw [hshape.2.1, hscan]
    simp

/-- Claim C5 witness: the multi-key-sort theorem evaluated at a concrete
query with a two-key sort specification. -/
theorem c5_witness :
    (executeQuery ⟨true, ⟨5, []⟩, ⟨5, []⟩, []⟩
        [("size", Value.int DEFAULT_RESULT_SIZE),
         ("sort", Value.list [Value.str "a", Value.str "b"])]).result
      = .error (.esUtilException
          "_get_results_by_scan does not support sort with more than one key: %s") :=
  (c5_multikey_sort_raises ⟨true, ⟨5, []⟩, ⟨5, []⟩, []⟩
      [("size", Value.int DEFAULT_RESULT_SIZE),
       ("sort", Value.list [Value.str "a", Value.str "b"])]
      [Value.str "a", Value.str "b"] rfl rfl (by decide) rfl (by decide)).1

theorem getResultsByScan_query_sorted (eng : Engine) (q : Dict)
    (ss : List Value)
    (hsort : dlookup q "sort" = some (Value.list ss)) (hlen : ss.length ≤ 1) :
    (getResultsByScan eng q).query
      = ddel (ddel (dinsert q "size" (Value.int 1)) "sort") "size" ∧
    EngineCall.search (dinsert q "size" (Value.int 1))
      ∈ (getResultsByScan eng q).calls := by
  have hsort' : dlookup (dinsert q "size" (Value.int 1)) "sort"
      = some (Value.list ss) :=
    (dlookup_dinsert_ne q "size" "sort" (Value.int 1) (by decide)).trans hsort
  simp only [getResultsByScan, hsort', pyLen]
  rw [if_neg (by omega : ¬ 1 < ss.length)]
  repeat' split
  all_goals simp

theorem getResultsByScan_query_nosort (eng : Engine) (q : Dict)
    (hsort : dlookup q "sort" = none) :
    (getResultsByScan eng q).query = ddel (dinsert q "size" (Value.int 1)) "size" ∧
    EngineCall.search (dinsert q "size" (Value.int 1))
      ∈ (getResultsByScan eng q).calls := by
  have hsort' : dlookup (dinsert q "size" (Value.int 1)) "sort" = none :=
    (dlookup_dinsert_ne q "size" "sort" (Value.int 1) (by decide)).trans hsort
  simp [getResultsByScan, hsort']

/-! ## Claim C9 -/

/-- Claim C9, counterexample: when the scroll path is taken with a
two-key sort specification, the fetch raises before the deletions, so
the caller's query document is left with `size` set to 1 (not deleted)
and its `sort` entry intact — contradicting the claim that on the scroll
path `size` is deleted and `sort` removed. -/
theorem c9_counterexample :
    scrollTaken (executeQuery ⟨true, ⟨5, []⟩, ⟨5, []⟩, []⟩
        [("size", Value.int DEFAULT_RESULT_SIZE),
         ("sort", Value.list [Value.str "a", Value.str "b"])]) = true ∧
    dlookup (executeQuery ⟨true, ⟨5, []⟩, ⟨5, []⟩, []⟩
        [("size", Value.int DEFAULT_RESULT_SIZE),
         ("sort", Value.list [Value.str "a", Value.str "b"])]).query "size"
      = some (Value.int 1) ∧
    dmem (executeQuery ⟨true, ⟨5, []⟩, ⟨5, []⟩, []⟩
        [("size", Value.int DEFAULT_RESULT_SIZE),
         ("sort", Value.list [Value.str "a", Value.str "b"])]).query "sort"
      = true := by
  refine ⟨rfl, rfl, rfl⟩

/-- Claim C9 (amended): when `execute_query` takes the scroll path and
the sort specification has at most one key (or is absent), the caller's
query document is mutated in place — `size` is first overwritten with 1
(the re-issued search sees size 1) and then deleted, any `sort` entry is
removed, and every other key is untouched; when the sort has more than
one key, the fetch raises with `size` left at 1 and `sort` intact; on
the non-scroll path the query document is left unchanged. -/
theorem c9_amended_query_mutation (eng : Engine) (q : Dict)
    (hex : eng.indexExists = true) :
    ((dlookup q "size" = some (Value.int DEFAULT_RESULT_SIZE) ∧
      eng.search1.hits.length < eng.search1.total) →
      ((∀ ss : List Value, dlookup q "sort" = some (Value.list ss) →
          ss.length ≤ 1 →
          (dmem (executeQuery eng q).query "size" = false ∧
           dmem (executeQuery eng q).query "sort" = false ∧
           (∀ k, k ≠ "size" → k ≠ "sort" →
              dlookup (executeQuery eng q).query k = dlookup q k) ∧
           EngineCall.search (dinsert q "size" (Value.int 1))
             ∈ (executeQuery eng q).calls)) ∧
       (dlookup q "sort" = none →
          (dmem (executeQuery eng q).query "size" = false ∧
           dmem (executeQuery eng q).query "sort" = false ∧
           (∀ k, k ≠ "size" → k ≠ "sort" →
              dlookup (executeQuery eng q).query k = dlookup q k) ∧
           EngineCall.search (dinsert q "size" (Value.int 1))
             ∈ (executeQuery eng q).calls)) ∧
       (∀ ss : List Value, dlookup q "sort" = some (Value.list ss) →
          1 < ss.length →
          (executeQuery eng q).query = dinsert q "size" (Value.int 1)))) ∧
    (¬(dlookup q "size" = some (Value.int DEFAULT_RESULT_SIZE) ∧
       eng.search1.hits.length < eng.search1.total) →
      (executeQuery eng q).query = q) := by
  constructor
  · intro hc
    have hshape := executeQuery_scroll_shape eng q hex hc.1 hc.2
    refine ⟨?_, ?_, ?_⟩
    · intro ss hsort hlen
      have hq := getResultsByScan_query_sorted eng q ss hsort hlen
      rw [hshape.1, hq.1, hshape.2.1]
      refine ⟨?_, ?_, ?_, ?_⟩
      · exact dmem_ddel_self _ _
      · rw [dmem, dlookup_ddel_ne _ _ _ (by decide : "size" ≠ "sort"),
          dlookup_ddel_self]
        rfl
      · intro k hk1 hk2
        rw [dlookup_ddel_ne _ _ _ (Ne.symm hk1),
          dlookup_ddel_ne _ _ _ (Ne.symm hk2),
          dlookup_dinsert_ne _ _ _ _ (Ne.symm hk1)]
      · exact List.mem_cons_of_mem _ (List.mem_cons_of_mem _ hq.2)
    · intro hsort
      have hq := getResultsByScan_query_nosort eng q hsort
      rw [hshape.1, hq.1, hshape.2.1]
      refine ⟨?_, ?_, ?_, ?_⟩
      · exact dmem_ddel_self _ _
      · rw [dmem, dlookup_ddel_ne _ _ _ (by decide : "size" ≠ "sort"),
          dlookup_dinsert_ne _ _ _ _ (by decide : "size" ≠ "sort"), hsort]
        rfl
      · intro k hk1 hk2
        rw [dlookup_ddel_ne _ _ _ (Ne.symm hk1),
          dlookup_dinsert_ne _ _ _ _ (Ne.symm hk1)]
      · exact List.mem_cons_of_mem _ (List.mem_cons_of_mem _ hq.2)
    · intro ss hsort hlen
      rw [hshape.1, getResultsByScan_multikey eng q ss hsort hlen]
  · intro hc
    exact (executeQuery_noscroll_shape eng q hex hc).1

/-- Claim C9 witness: the amended theorem evaluated at a concrete
scroll-path query carrying a single-key sort: after the call the query
has neither `size` nor `sort`, and its other key is untouched. -/
theorem c9_witness :
    dmem (executeQuery ⟨true, ⟨5, []⟩, ⟨5, []⟩, []⟩
        [("size", Value.int DEFAULT_RESULT_SIZE), ("a", Value.int 7),
         ("sort", Value.list [Value.str "k"])]).query "size" = false ∧
    dmem (executeQuery ⟨true, ⟨5, []⟩, ⟨5, []⟩, []⟩
        [("size", Value.int DEFAULT_RESULT_SIZE), ("a", Value.int 7),
         ("sort", Value.list [Value.str "k"])]).query "sort" = false ∧
    dlookup (executeQuery ⟨true, ⟨5, []⟩, ⟨5, []⟩, []⟩
        [("size", Value.int DEFAULT_RESULT_SIZE), ("a", Value.int 7),
         ("sort", Value.list [Value.str "k"])]).query "a"
      = some (Value.int 7) := by
  have h := ((c9_amended_query_mutation ⟨true, ⟨5, []⟩, ⟨5, []⟩, []⟩
      [("size", Value.int DEFAULT_RESULT_SIZE), ("a", Value.int 7),
       ("sort", Value.list [Value.str "k"])] rfl).1
      ⟨rfl, by decide⟩).1 [Value.str "k"] rfl (by decide)
  exact ⟨h.1, h.2.1, (h.2.2.1 "a" (by decide) (by decide)).trans rfl⟩

theorem mapM_option_eq_some {α β : Type} (f : α → Option β) (l : List α)
    (h : ∀ a ∈ l, ∃ b, f a = some b) : ∃ r, l.mapM f = some r := by
  suffices hs : ∀ acc : List β, ∃ r, List.mapM.loop f l acc = some r from hs []
  induction l with
  | nil => exact fun acc => ⟨acc.reverse, rfl⟩
  | cons a t ih =>
      intro acc
      obtain ⟨b, hb⟩ := h a (by simp)
      obtain ⟨r, hr⟩ := ih (fun x hx => h x (by simp [hx])) (b :: acc)
      exact ⟨r, by rw [List.mapM.loop, hb]; exact hr⟩

theorem hitLe_trans (k : String) (dsc : Bool) (a b c : Dict)
    (hab : hitLe k dsc a b = true) (hbc : hitLe k dsc b c = true) :
    hitLe k dsc a c = true := by
  cases dsc <;> simp only [hitLe, if_true, Bool.false_eq_true, if_false] at *
  · exact valLe_trans _ _ _ hab hbc
  · exact valLe_trans _ _ _ hbc hab

theorem hitLe_total (k : String) (dsc : Bool) (a b : Dict) :
    (hitLe k dsc a b || hitLe k dsc b a) = true := by
  cases dsc <;> simp only [hitLe, if_true, Bool.false_eq_true, if_false]
  · exact valLe_total _ _
  · rw [Bool.or_comm]; exact valLe_total _ _

theorem hitLe_true_def (k : String) (a b : Dict) :
    hitLe k true a b = valLe (scanSortKeyD k b) (scanSortKeyD k a) := rfl

theorem hitLe_false_def (k : String) (a b : Dict) :
    hitLe k false a b = valLe (scanSortKeyD k a) (scanSortKeyD k b) := rfl

theorem getResultsByScan_singlekey (eng : Engine) (q : Dict) (k d : String)
    (hsort : dlookup q "sort" = some (Value.list [Value.dict [(k, Value.str d)]]))
    (hvals : ∀ h ∈ eng.scanHits, ∃ n : Int, scanSortVal k h = some (Value.int n)) :
    (getResultsByScan eng q).result
      = .ok (sortHits k (decide (d = "desc")) eng.scanHits) := by
  have hsort' : dlookup (dinsert q "size" (Value.int 1)) "sort"
      = some (Value.list [Value.dict [(k, Value.str d)]]) :=
    (dlookup_dinsert_ne q "size" "sort" (Value.int 1) (by decide)).trans hsort
  obtain ⟨r, hr⟩ := mapM_option_eq_some (fun h => scanSortVal k h) eng.scanHits
    (fun a ha => (hvals a ha).elim (fun n hn => ⟨Value.int n, hn⟩))
  simp only [getResultsByScan, hsort', pyLen, pyTruthy, pyIndex0, pyEqStr,
    List.length_cons, List.length_nil, List.isEmpty_cons, Bool.not_false]
  rw [if_neg (by omega : ¬ 1 < 0 + 1)]
  simp only [if_true]
  rw [hr]

/-! ## Claim C6 -/

/-- Claim C6: after a scroll retrieval whose query carries a single sort
key, the returned hit list is non-increasing in that key when the
direction is `desc` and non-decreasing otherwise, where each hit's sort
value is read from its full stored record (`_source`) when present and
otherwise from the first element of its field projection for that
key. -/
theorem c6_scan_resort (eng : Engine) (q : Dict) (k d : String)
    (hsort : dlookup q "sort" = some (Value.list [Value.dict [(k, Value.str d)]]))
    (hvals : ∀ h ∈ eng.scanHits, ∃ n : Int, scanSortVal k h = some (Value.int n)) :
    (getResultsByScan eng q).result
      = .ok (sortHits k (decide (d = "desc")) eng.scanHits) ∧
    (sortHits k (decide (d = "desc")) eng.scanHits).Pairwise (fun a b =>
      ∀ na nb : Int, scanSortVal k a = some (Value.int na) →
        scanSortVal k b = some (Value.int nb) →
        (if d = "desc" then nb ≤ na else na ≤ nb)) := by
  refine ⟨getResultsByScan_singlekey eng q k d hsort hvals, ?_⟩
  have hpw := List.sorted_mergeSort
    (fun a b c => hitLe_trans k (decide (d = "desc")) a b c)
    (fun a b => hitLe_total k (decide (d = "desc")) a b) eng.scanHits
  refine hpw.imp ?_
  intro a b hab na nb hna hnb
  cases hdec : decide (d = "desc") with
  | false =>
      rw [hdec, hitLe_false_def] at hab
      rw [if_neg (of_decide_eq_false hdec)]
      simp only [scanSortKeyD, hna, hnb, Option.getD_some, valLe_int,
        decide_eq_true_eq] at hab
      exact hab
  | true =>
      rw [hdec, hitLe_true_def] at hab
      rw [if_pos (of_decide_eq_true hdec)]
      simp only [scanSortKeyD, hna, hnb, Option.getD_some, valLe_int,
        decide_eq_true_eq] at hab
      exact hab

/-- Claim C6 witness: the re-sort theorem evaluated on two full-record
hits with `time_recorded` values 1 and 3 under a descending single-key
sort. -/
theorem c6_witness :
    (getResultsByScan ⟨true, ⟨0, []⟩, ⟨0, []⟩,
        [[("_source", Value.dict [("time_recorded", Value.int 1)])],
         [("_source", Value.dict [("time_recorded", Value.int 3)])]]⟩
        [("sort", Value.list
            [Value.dict [("time_recorded", Value.str "desc")]])]).result
      = .ok (sortHits "time_recorded" (decide (("desc" : String) = "desc"))
          [[("_source", Value.dict [("time_recorded", Value.int 1)])],
           [("_source", Value.dict [("time_recorded", Value.int 3)])]]) := by
  have h := (c6_scan_resort ⟨true, ⟨0, []⟩, ⟨0, []⟩,
      [[("_source", Value.dict [("time_recorded", Value.int 1)])],
       [("_source", Value.dict [("time_recorded", Value.int 3)])]]⟩
      [("sort", Value.list [Value.dict [("time_recorded", Value.str "desc")]])]
      "time_recorded" "desc" rfl ?_).1
  · exact h
  · intro h hm
    simp only [List.mem_cons, List.not_mem_nil, or_false] at hm
    rcases hm with rfl | rfl
    · exact ⟨1, rfl⟩
    · exact ⟨3, rfl⟩

end EsUtils
